import Mathlib

/-!
Verification of the Python code-execution sandbox
(`app/(chat)/api/python/modules/code_executor.py`).

The development shallowly embeds `execute_python_code` and its helpers:
pure string/path manipulation is translated directly; the effects
(temporary-directory creation, HTTP fetches, the child process, moving the
artifact, removing the work area) are supplied by an explicit `Oracle`
describing what the environment does, and the function threads an explicit
trace of filesystem actions.  Python exceptions escaping the function are
modelled with `Except`.
-/

namespace CodeExecutor

/-! ## Path model

Embeds the `os.path` operations the executor uses on absolute POSIX paths:
`os.path.join`, `os.path.abspath` (which normalizes `.` and `..` segments;
all paths the executor feeds it are already absolute, so no cwd is needed)
and `os.path.commonprefix` (which is *character-wise*, not segment-wise).
Paths are Lean `String`s; the workers operate on `List Char`.
-/

/-- Split a character list on `'/'` (like `"a/b".split("/")`). -/
def splitSlash : List Char → List (List Char)
  | [] => [[]]
  | c :: cs =>
    let rest := splitSlash cs
    if c = '/' then [] :: rest
    else
      match rest with
      | [] => [[c]]
      | seg :: segs => (c :: seg) :: segs

/-- Process path segments the way `os.path.normpath` does for an absolute
path: drop empty segments and `.`, let `..` pop the previous segment
(at the root, `..` is dropped). `stack` holds the segments kept so far,
in reverse. -/
def normSegs (stack : List (List Char)) : List (List Char) → List (List Char)
  | [] => stack.reverse
  | seg :: rest =>
    if seg = [] ∨ seg = ['.'] then normSegs stack rest
    else if seg = ['.', '.'] then
      match stack with
      | [] => normSegs [] rest
      | _ :: stack' => normSegs stack' rest
    else normSegs (seg :: stack) rest

/-- Rebuild an absolute path from its segments. -/
def joinSegs : List (List Char) → List Char
  | [] => ['/']
  | seg :: rest => '/' :: seg ++ joinSegs' rest
where
  joinSegs' : List (List Char) → List Char
    | [] => []
    | seg :: rest => '/' :: seg ++ joinSegs' rest

/-- `os.path.abspath` on an already-absolute path: normalize `.` / `..` /
duplicate slashes. -/
def os_path_abspath (p : String) : String :=
  String.mk (joinSegs (normSegs [] (splitSlash p.toList)))

/-- `os.path.join(a, b)` for POSIX paths: an absolute `b` discards `a`. -/
def os_path_join (a b : String) : String :=
  if b.toList.head? = some '/' then b
  else if a.toList = [] ∨ a.toList.getLast? = some '/' then a ++ b
  else a ++ "/" ++ b

/-- Longest common character prefix of two character lists. -/
def commonPrefixChars : List Char → List Char → List Char
  | a :: as, b :: bs => if a = b then a :: commonPrefixChars as bs else []
  | _, _ => []

/-- `os.path.commonprefix([a, b])`: the longest common *string* prefix of the
two paths (character-wise, not segment-wise). -/
def os_path_commonprefix (a b : String) : String :=
  String.mk (commonPrefixChars a.toList b.toList)

/-- The destination path staged for `filename`:
`target_path = os.path.join(temp_dir_path, filename)`. -/
def target_path (temp_dir_path filename : String) : String :=
  os_path_join temp_dir_path filename

/-- The containment check guarding staging (line 146 of the source); the file
is admitted (not skipped) exactly when
`os.path.commonprefix([abspath(target), abspath(temp_dir)]) == abspath(temp_dir)`. -/
def containment_admits (temp_dir_path filename : String) : Bool :=
  os_path_commonprefix
      (os_path_abspath (target_path temp_dir_path filename))
      (os_path_abspath temp_dir_path)
    == os_path_abspath temp_dir_path

/-- `w` is a strict ancestor directory of path `d` (on normalized absolute
paths): `d` extends `w` with a separator and a further component. -/
def is_strict_ancestor (w d : String) : Bool :=
  (w ++ "/").toList.isPrefixOf d.toList && d.toList ≠ (w ++ "/").toList

/-! ## Configuration constants (lines 38-40 of the source) -/

def DEFAULT_TIMEOUT : ℚ := 10

def MAX_TIMEOUT : ℚ := 60

def PLOT_FILENAME : String := "plot.png"

/-! ## Timeout validation (lines 121-128)

A Python value passed as `timeout` is either an `int`/`float` (modelled as a
rational) or some non-numeric value; the `timeout` parameter itself is
optional with default `DEFAULT_TIMEOUT`.
-/

/-- A Python value received for the `timeout` parameter. -/
inductive PyTimeout
  | num (q : ℚ)
  | nonNumeric
deriving DecidableEq

/-- Lines 121-128: `if not isinstance(timeout, (int, float)) or timeout <= 0:
timeout = DEFAULT_TIMEOUT; elif timeout > MAX_TIMEOUT: timeout = MAX_TIMEOUT`. -/
def validate_timeout : PyTimeout → ℚ
  | .nonNumeric => DEFAULT_TIMEOUT
  | .num q => if q ≤ 0 then DEFAULT_TIMEOUT else if q > MAX_TIMEOUT then MAX_TIMEOUT else q

/-- The effective timeout for a caller-supplied value, `none` meaning the
argument was absent (Python default `timeout: int = DEFAULT_TIMEOUT`). -/
def effective_timeout (t : Option PyTimeout) : ℚ :=
  validate_timeout (t.getD (.num DEFAULT_TIMEOUT))

/-! ## Input-file staging (lines 139-183) -/

/-- One entry of `input_files`: `{'filename': …, 'url': …}`. -/
structure InputFileSpec where
  filename : String
  url : String
deriving DecidableEq

/-- What the environment did for one `requests.get` + write of an input file. -/
inductive FetchOutcome
  /-- fetch succeeded with 2xx and the write succeeded -/
  | ok
  /-- `requests.exceptions.RequestException` (transport error or
  `raise_for_status` on a non-2xx response), with its message -/
  | requestError (msg : String)
  /-- `IOError` while writing the fetched bytes, with its message -/
  | ioError (msg : String)
  /-- any other exception while handling the file -/
  | otherError
deriving DecidableEq

/-- Per-file staging outcome. -/
inductive StageOutcome
  /-- skipped by the containment check (lines 146-151) -/
  | skippedUnsafe
  /-- fetched and written to the given destination path (lines 153-168) -/
  | written (path : String)
  /-- fetch failed, warning recorded, loop continued (lines 170-174) -/
  | fetchFailed
  /-- write failed, warning recorded, loop continued (lines 175-178) -/
  | writeFailed
  /-- unexpected error, warning recorded, loop continued (lines 179-182) -/
  | unexpectedFailed
deriving DecidableEq

/-- Process one input file: the containment check, then the fetch/write with
its exception handlers.  Returns the outcome together with the text appended
to `result["stderr"]` for this file (empty on success). -/
def stage_one (temp_dir_path : String) (f : InputFileSpec) (fetch : FetchOutcome) :
    StageOutcome × String :=
  if containment_admits temp_dir_path f.filename = false then
    (.skippedUnsafe,
     "\n[Warning: Skipped input file with potentially unsafe path: " ++ f.filename ++ "]")
  else
    match fetch with
    | .ok => (.written (target_path temp_dir_path f.filename), "")
    | .requestError msg =>
        (.fetchFailed, "\n[Error fetching input file '" ++ f.filename ++ "': " ++ msg ++ "]")
    | .ioError msg =>
        (.writeFailed, "\n[Error writing input file '" ++ f.filename ++ "': " ++ msg ++ "]")
    | .otherError =>
        (.unexpectedFailed, "\n[Unexpected error handling input file '" ++ f.filename ++ "']")

/-- The staging loop from file index `i` on: every file is processed in input
order, each with its own environment outcome `fetch i`. -/
def stage_files_from (temp_dir_path : String) (fetch : Nat → FetchOutcome) :
    List InputFileSpec → Nat → List (StageOutcome × String)
  | [], _ => []
  | f :: rest, i => stage_one temp_dir_path f (fetch i) :: stage_files_from temp_dir_path fetch rest (i + 1)

/-- The whole staging loop (lines 140-183). -/
def stage_files (temp_dir_path : String) (files : List InputFileSpec)
    (fetch : Nat → FetchOutcome) : List (StageOutcome × String) :=
  stage_files_from temp_dir_path fetch files 0

/-- The text accumulated into `result["stderr"]` by the staging loop. -/
def staging_stderr (temp_dir_path : String) (files : List InputFileSpec)
    (fetch : Nat → FetchOutcome) : String :=
  ((stage_files temp_dir_path files fetch).map Prod.snd).foldl (· ++ ·) ""

/-! ## Python string helpers used when building the error message
(lines 217-222) -/

/-- Python `str.strip()` whitespace (ASCII portion). -/
def isPySpace (c : Char) : Bool :=
  c = ' ' ∨ c = '\t' ∨ c = '\n' ∨ c = '\x0b' ∨ c = '\x0c' ∨ c = '\r'

/-- Python `str.strip()`. -/
def py_strip (s : String) : String :=
  String.mk (((s.toList.dropWhile isPySpace).reverse.dropWhile isPySpace).reverse)

/-- Split a character list on `'\n'` (keeping a trailing empty piece). -/
def splitNl : List Char → List (List Char)
  | [] => [[]]
  | c :: cs =>
    let rest := splitNl cs
    if c = '\n' then [] :: rest
    else
      match rest with
      | [] => [[c]]
      | seg :: segs => (c :: seg) :: segs

/-- Python `str.splitlines()` restricted to `'\n'` terminators: `""` gives no
lines and a trailing newline adds no empty line. -/
def py_splitlines (s : String) : List String :=
  if s = "" then []
  else
    let parts := (splitNl s.toList).map String.mk
    if parts.getLast? = some "" then parts.dropLast else parts

/-- Lines 219-220: drop the instrumentation's own diagnostic lines
(`line.startswith("[Plot saved to")`) from the child's stderr. -/
def filtered_stderr (stderr : String) : String :=
  String.intercalate "\n"
    ((py_splitlines stderr).filter (fun l => ¬ "[Plot saved to".toList.isPrefixOf l.toList))

/-- The `result["error"]` built for a non-zero exit status (lines 217-222):
the fixed sentence, then — when the child produced stderr whose filtered,
stripped form is non-blank — that text after a `"\nStderr:\n"` separator. -/
def nonzero_error (rc : Int) (stderr : String) : String :=
  "Code execution failed with return code " ++ toString rc ++
    (if stderr ≠ "" then
      (let f := py_strip (filtered_stderr stderr)
       if f ≠ "" then "\nStderr:\n" ++ f else "")
     else "")

/-! ## The executor (lines 93-284)

Effects are supplied by an `Oracle` describing what the environment does
during this execution; the function returns the Python-level outcome (a
result dictionary, or an exception escaping the function) together with a
trace of the work-area lifecycle.  Writing `script.py` is modelled as
succeeding; the child's behaviour is entirely the oracle's `run` field, so
the `code` argument does not influence the modelled state.
-/

/-- The `subprocess.CompletedProcess` fields the executor reads. -/
structure CompletedProcess where
  returncode : Int
  stdout : String
  stderr : String
deriving DecidableEq

/-- How `subprocess.run` ended. -/
inductive RunOutcome
  /-- returned a `CompletedProcess` -/
  | completed (p : CompletedProcess)
  /-- raised `subprocess.TimeoutExpired` -/
  | timeoutExpired
  /-- raised `FileNotFoundError` (interpreter could not be spawned) -/
  | spawnFailed
deriving DecidableEq

/-- The environment's behaviour during one execution. -/
structure Oracle where
  /-- `tempfile.mkdtemp()`: the created directory, or the message of the
  exception it raised -/
  temp_dir : Except String String
  /-- outcome of fetching/writing the `i`-th input file -/
  fetch : Nat → FetchOutcome
  /-- how the child process run ended -/
  run : RunOutcome
  /-- `os.path.exists(temp_plot_path)` after the run -/
  plot_exists : Bool
  /-- `none` if `os.makedirs` + `shutil.move` succeeded, otherwise the
  message of the exception raised while promoting the plot -/
  promote_error : Option String
  /-- the `uuid.uuid4()` rendering used in the persistent plot filename -/
  plot_uuid : String
  /-- whether `shutil.rmtree(temp_dir_path)` succeeds in the `finally` block -/
  rmtree_ok : Bool
  /-- `sys.executable` -/
  sys_executable : String

/-- A Python exception escaping `execute_python_code`. -/
inductive PyExn
  /-- an `UnboundLocalError` for the named local variable -/
  | unboundLocalError (name : String)
deriving DecidableEq

/-- The result dictionary (lines 106-112). -/
structure ExecResult where
  stdout : String
  stderr : String
  error : Option String
  success : Bool
  plot_url : Option String
deriving DecidableEq

/-- Trace of the work-area lifecycle over one call. -/
structure ExecTrace where
  /-- `tempfile.mkdtemp()` was reached and succeeded -/
  work_area_created : Bool
  /-- how many times `shutil.rmtree(temp_dir_path)` was invoked -/
  cleanup_attempts : Nat
  /-- the work area is absent from the filesystem when the call ends -/
  work_area_absent : Bool
deriving DecidableEq

/-- Lines 211-224: record the child's stdout/stderr (an *assignment*, so any
staging warnings previously accumulated in `result["stderr"]` are replaced)
and classify the exit status. -/
def classify_exit (p : CompletedProcess) : ExecResult :=
  if p.returncode = 0 then
    { stdout := p.stdout, stderr := p.stderr, error := none,
      success := true, plot_url := none }
  else
    { stdout := p.stdout, stderr := p.stderr,
      error := some (nonzero_error p.returncode p.stderr),
      success := false, plot_url := none }

/-- Lines 226-253: if `plot.png` exists in the work area, promote it (move to
the persistent per-chat directory and set `plot_url`); a promotion failure
appends a warning to `result["stderr"]` and leaves `plot_url` unset; no other
field is touched. -/
def promote_plot (chat_id : String) (plot_exists : Bool)
    (promote_error : Option String) (plot_uuid : String)
    (base : ExecResult) : ExecResult :=
  if plot_exists then
    match promote_error with
    | none =>
      let url : String := "/api/uploads/" ++ chat_id ++ "/plot_" ++ plot_uuid ++ ".png"
      { base with plot_url := some url }
    | some e =>
      { base with
          stderr := base.stderr ++ "\n[Error processing generated plot: " ++ e ++ "]",
          plot_url := none }
  else base

/-- Shallow embedding of `execute_python_code` (lines 93-284), mirroring its
control flow: the missing-`chat_id` early return; timeout validation;
`tempfile.mkdtemp` inside the `try`; the staging loop accumulating warnings
into `result["stderr"]`; `subprocess.run`; on completion the *assignment* of
`process.stdout` / `process.stderr` into the result (line 211-212), the
success/error classification, and the plot check/promotion; the
`except subprocess.TimeoutExpired` handler whose `getattr(process, …)`
evaluates the local `process` that is unbound exactly when that exception
was raised, so the handler raises `UnboundLocalError`; the
`except FileNotFoundError` handler; and the `finally` block attempting
`shutil.rmtree` whenever the directory was created. -/
def execute_python_code (code : String) (input_files : List InputFileSpec)
    (timeout : Option PyTimeout) (chat_id : Option String) (o : Oracle) :
    Except PyExn ExecResult × ExecTrace :=
  -- line 114: `if not chat_id:` (None or empty string)
  if chat_id.getD "" = "" then
    (.ok { stdout := "", stderr := "",
           error := some "Internal configuration error: Missing chat_id for execution.",
           success := false, plot_url := none },
     { work_area_created := false, cleanup_attempts := 0, work_area_absent := true })
  else
    let _t : ℚ := effective_timeout timeout
    match o.temp_dir with
    | .error msg =>
      -- `mkdtemp` raised: caught by `except Exception` (line 271); `finally`
      -- sees `temp_dir_path` still `None` and does not attempt removal
      (.ok { stdout := "", stderr := "",
             error := some ("An unexpected error occurred during code execution: " ++ msg),
             success := false, plot_url := none },
       { work_area_created := false, cleanup_attempts := 0, work_area_absent := true })
    | .ok d =>
      let staged := staging_stderr d input_files o.fetch
      match o.run with
      | .timeoutExpired =>
        -- lines 255-267: the handler sets `result["error"]` and then evaluates
        -- `getattr(process, 'stdout', None)`; `process` was never assigned, so
        -- an `UnboundLocalError` escapes (after the `finally` block runs)
        (.error (.unboundLocalError "process"),
         { work_area_created := true, cleanup_attempts := 1, work_area_absent := o.rmtree_ok })
      | .spawnFailed =>
        -- lines 268-270
        (.ok { stdout := "", stderr := staged,
               error := some ("Error: Python interpreter not found at " ++ o.sys_executable),
               success := false, plot_url := none },
         { work_area_created := true, cleanup_attempts := 1, work_area_absent := o.rmtree_ok })
      | .completed p =>
        -- lines 211-253: the assignments at 211-212 *overwrite* the staging
        -- warnings accumulated in `result["stderr"]`; plot promotion follows,
        -- independent of the exit status
        (.ok (promote_plot (chat_id.getD "") o.plot_exists o.promote_error o.plot_uuid
               (classify_exit p)),
         { work_area_created := true, cleanup_attempts := 1, work_area_absent := o.rmtree_ok })

/-! ## The instrumentation preamble's capture-once wrapper
(`MATPLOTLIB_SETUP_CODE`, lines 59-90)

State of the generated `_save_and_show` wrapper: the `_plot_saved` flag and
how many times `plt.savefig('plot.png')` has succeeded (each success writes
the one fixed filename).  `savefig_ok` is whether the `plt.savefig` call
inside the `try` succeeds; on failure the exception is caught, the message
printed, and the flag left unset.
-/

structure ShowState where
  plot_saved : Bool
  writes : Nat
deriving DecidableEq

/-- One invocation of the `_save_and_show` wrapper. -/
def save_and_show (savefig_ok : Bool) (s : ShowState) : ShowState :=
  if s.plot_saved = false then
    if savefig_ok then { plot_saved := true, writes := s.writes + 1 }
    else s
  else s

/-- A whole run's worth of `plt.show()` calls, from the initial
`_plot_saved = False` state, with the given per-call `savefig` outcomes. -/
def run_shows (oks : List Bool) : ShowState :=
  oks.foldl (fun s ok => save_and_show ok s) { plot_saved := false, writes := 0 }

/-! ## Sample inputs used by concrete instantiations -/

/-- An environment in which `mkdtemp` yields `/tmp/tmpw4`, fetching file `i`
behaves as `fetch`, the child run ends as `run`, the plot file exists as stated,
promotion fails with the given message when `some`, and cleanup succeeds. -/
def mkOracle (fetch : Nat → FetchOutcome) (run : RunOutcome) (plot_exists : Bool)
    (promote_error : Option String) : Oracle :=
  { temp_dir := .ok "/tmp/tmpw4", fetch := fetch, run := run,
    plot_exists := plot_exists, promote_error := promote_error, plot_uuid := "u4",
    rmtree_ok := true, sys_executable := "/usr/bin/python3" }

/-- A child process that exited 0 printing `1`. -/
def okProcess : CompletedProcess :=
  { returncode := 0, stdout := "1\n", stderr := "" }

/-- A child process that exited 1 with a traceback. -/
def failProcess : CompletedProcess :=
  { returncode := 1, stdout := "", stderr := "Traceback: boom\n" }

/-- The result dictionary for a plain successful run with no plot. -/
def okResult : ExecResult :=
  { stdout := "1\n", stderr := "", error := none, success := true, plot_url := none }

/-! ## Helper lemmas -/

/-- A string whose first summand is non-empty is non-empty. -/
theorem append_left_ne_empty (a b : String) (h : a.length ≠ 0) : a ++ b ≠ "" := by
  intro hab
  have hlen := congrArg String.length hab
  rw [String.length_append, String.length_empty] at hlen
  omega

/-- The error text built for a non-zero exit status is never empty. -/
theorem nonzero_error_ne_empty (rc : Int) (st : String) : nonzero_error rc st ≠ "" := by
  unfold nonzero_error
  apply append_left_ne_empty
  rw [String.length_append]
  have h39 : ("Code execution failed with return code " : String).length = 39 := by decide
  omega

/-! ## Claims -/

/-- **C1** (refuted, code bug).  The claim says: whenever the containment
check at staging admits a destination, the canonical destination path has the
work area as a strict ancestor, so a `filename` with traversal segments never
causes a write outside the work area.  The check at line 146 compares with
`os.path.commonprefix`, which is *character-wise*: for work area
`/tmp/tmpabc`, the traversal filename `../tmpabcd/evil` canonicalizes to
`/tmp/tmpabcd/evil`, which extends `/tmp/tmpabc` as a *string* but lies in
the sibling directory `/tmp/tmpabcd`.  The check admits it, and staging then
writes the fetched bytes to that escaping destination. -/
theorem containment_check_admits_escape :
    containment_admits "/tmp/tmpabc" "../tmpabcd/evil" = true ∧
    os_path_abspath (target_path "/tmp/tmpabc" "../tmpabcd/evil") = "/tmp/tmpabcd/evil" ∧
    is_strict_ancestor "/tmp/tmpabc" "/tmp/tmpabcd/evil" = false ∧
    stage_one "/tmp/tmpabc" { filename := "../tmpabcd/evil", url := "/api/uploads/c/f.csv" } .ok
      = (.written "/tmp/tmpabc/../tmpabcd/evil", "") := by
  refine ⟨by decide, by decide, by decide, by decide⟩

/-- **C2** (refuted, code bug).  The claim says a timed-out execution
*returns* an `ExecutionResult` with `success=false` and a timeout message.
In the `except subprocess.TimeoutExpired` handler (lines 255-267),
`getattr(process, 'stdout', None)` evaluates the local variable `process`,
which is unbound exactly when `subprocess.run` raised `TimeoutExpired`, so
the handler raises `UnboundLocalError` and no result is returned. -/
theorem timeout_raises_unbound_local :
    (execute_python_code "import time\ntime.sleep(5)" [] (some (.num 1)) (some "chat1")
      { temp_dir := .ok "/tmp/tmpw1", fetch := fun _ => .ok, run := .timeoutExpired,
        plot_exists := false, promote_error := none, plot_uuid := "u4", rmtree_ok := true,
        sys_executable := "/usr/bin/python3" }).1
      = .error (.unboundLocalError "process") := by rfl

/-- **C3** (refuted, code bug).  The claim says the bracketed fetch-failure
warning appended during staging is present in the `stderr` of the final
result, in addition to the child's stderr.  Staging does append the warning
(first conjunct), but line 212 *assigns* `result["stderr"] = process.stderr`,
discarding it: with a child that completes with empty stderr, the returned
result's `stderr` is `""` and the warning is gone (second conjunct). -/
theorem fetch_warning_lost_from_result_stderr :
    stage_files "/tmp/tmpw2" [{ filename := "data.csv", url := "http://bad.invalid/f" }]
        (fun _ => .requestError "Connection refused")
      = [(.fetchFailed, "\n[Error fetching input file 'data.csv': Connection refused]")] ∧
    (execute_python_code "print('ok')" [{ filename := "data.csv", url := "http://bad.invalid/f" }]
        none (some "chat1")
        { temp_dir := .ok "/tmp/tmpw2", fetch := fun _ => .requestError "Connection refused",
          run := .completed { returncode := 0, stdout := "ok\n", stderr := "" },
          plot_exists := false, promote_error := none, plot_uuid := "u4", rmtree_ok := true,
          sys_executable := "/usr/bin/python3" }).1
      = .ok { stdout := "ok\n", stderr := "", error := none, success := true, plot_url := none } := by
  exact ⟨by decide, by rfl⟩

/-- **C4**, counterexample to the claim as stated.  The claim asserts that a
timeout yields an `ExecutionResult` with `success=false` and a non-empty
`errorMessage`; on this timed-out execution the function instead raises (an
`UnboundLocalError` escapes), so no `ExecutionResult` is produced at all. -/
theorem timeout_produces_no_result :
    (execute_python_code "import time\ntime.sleep(99)" [] (some (.num 2)) (some "chat2")
      { temp_dir := .ok "/tmp/tmpw3", fetch := fun _ => .ok, run := .timeoutExpired,
        plot_exists := false, promote_error := none, plot_uuid := "u4", rmtree_ok := true,
        sys_executable := "/usr/bin/python3" }).1.isOk = false := by rfl

/-- **C4** (amended).  For every `ExecutionResult` actually returned by
`execute_python_code` (with a valid `chat_id` and a created work area):
`success` is true iff the child process terminated with exit status zero;
spawn failure and non-zero exit status yield `success=false`; and `error` is
set, to a non-empty message, exactly when `success` is false.  (A timeout
returns no result: the handler raises, see `timeout_produces_no_result`.) -/
theorem success_iff_zero_exit (code : String) (files : List InputFileSpec)
    (t : Option PyTimeout) (cid : String) (o : Oracle) (d : String) (r : ExecResult)
    (hcid : cid ≠ "") (htmp : o.temp_dir = .ok d)
    (hret : (execute_python_code code files t (some cid) o).1 = .ok r) :
    (r.success = true ↔ ∃ p, o.run = .completed p ∧ p.returncode = 0) ∧
    (r.error = none ↔ r.success = true) ∧
    (∀ s, r.error = some s → s ≠ "") := by
  obtain ⟨td, fe, run, pe, pr, uu, rk, se⟩ := o
  simp only at htmp
  subst htmp
  have hc : (some cid).getD "" ≠ "" := by simpa using hcid
  cases run with
  | timeoutExpired =>
      simp only [execute_python_code, if_neg hc] at hret
      exact Except.noConfusion hret
  | spawnFailed =>
      simp only [execute_python_code, if_neg hc, Except.ok.injEq] at hret
      subst hret
      refine ⟨by simp, by simp, ?_⟩
      intro s hs
      simp only [Option.some.injEq] at hs
      subst hs
      apply append_left_ne_empty
      decide
  | completed p =>
      simp only [execute_python_code, if_neg hc, Except.ok.injEq] at hret
      subst hret
      unfold promote_plot classify_exit
      by_cases hrc : p.returncode = 0 <;>
        cases pe <;> rcases pr with _ | e <;>
          simp_all <;>
            exact nonzero_error_ne_empty p.returncode p.stderr

/-- Witness for `success_iff_zero_exit` at a concrete zero-exit execution. -/
theorem success_iff_zero_exit_witness :
    (okResult.success = true ↔
      ∃ p, (mkOracle (fun _ => .ok) (.completed okProcess) false none).run = .completed p ∧ p.returncode = 0) ∧
    (okResult.error = none ↔ okResult.success = true) ∧
    (∀ s, okResult.error = some s → s ≠ "") := by
  exact success_iff_zero_exit "print(1)" [] none "chat1"
    (mkOracle (fun _ => .ok) (.completed okProcess) false none) "/tmp/tmpw4" okResult
    (by decide) rfl rfl

/-- **C5** (confirmed).  Timeout clamping: an absent, non-numeric, or
non-positive requested timeout yields the configured default; a value above
the configured maximum yields the maximum; a numeric value strictly between 0
and the maximum passes through unchanged. -/
theorem timeout_clamping :
    effective_timeout none = DEFAULT_TIMEOUT ∧
    effective_timeout (some .nonNumeric) = DEFAULT_TIMEOUT ∧
    (∀ q : ℚ, q ≤ 0 → effective_timeout (some (.num q)) = DEFAULT_TIMEOUT) ∧
    (∀ q : ℚ, MAX_TIMEOUT < q → effective_timeout (some (.num q)) = MAX_TIMEOUT) ∧
    (∀ q : ℚ, 0 < q → q < MAX_TIMEOUT → effective_timeout (some (.num q)) = q) := by
  refine ⟨by decide, rfl, ?_, ?_, ?_⟩
  · intro q hq
    simp [effective_timeout, validate_timeout, hq]
  · intro q hq
    have h1 : ¬ q ≤ 0 := by unfold MAX_TIMEOUT at hq; linarith
    simp [effective_timeout, validate_timeout, h1, hq]
  · intro q h0 hmax
    have h1 : ¬ q ≤ 0 := by linarith
    have h2 : ¬ MAX_TIMEOUT < q := by linarith
    simp [effective_timeout, validate_timeout, h1, h2]

/-- Witness for `timeout_clamping` at the concrete requests −3, 100 and 5. -/
theorem timeout_clamping_witness :
    effective_timeout (some (.num (-3))) = DEFAULT_TIMEOUT ∧
    effective_timeout (some (.num 100)) = MAX_TIMEOUT ∧
    effective_timeout (some (.num 5)) = 5 := by
  refine ⟨timeout_clamping.2.2.1 (-3) (by norm_num),
          timeout_clamping.2.2.2.1 100 (by norm_num [MAX_TIMEOUT]),
          timeout_clamping.2.2.2.2 5 (by norm_num) (by norm_num [MAX_TIMEOUT])⟩

/-- **C6** (confirmed).  Whenever the work area was created, the `finally`
block attempts its recursive removal exactly once — on every exit path of the
embedding, including the handler that raises on timeout — and when the
removal succeeds the work area is absent from the filesystem afterwards
(removal failure is logged, not escalated, so only `work_area_absent` is
conditional on it). -/
theorem work_area_cleanup (code : String) (files : List InputFileSpec)
    (t : Option PyTimeout) (chat_id : Option String) (o : Oracle)
    (h : (execute_python_code code files t chat_id o).2.work_area_created = true) :
    (execute_python_code code files t chat_id o).2.cleanup_attempts = 1 ∧
    (o.rmtree_ok = true →
      (execute_python_code code files t chat_id o).2.work_area_absent = true) := by
  obtain ⟨td, fe, run, pe, pr, uu, rk, se⟩ := o
  by_cases hc : chat_id.getD "" = ""
  · simp [execute_python_code, hc] at h
  · cases td with
    | error m => simp [execute_python_code, hc] at h
    | ok d => cases run <;> simp [execute_python_code, hc]

/-- Witness for `work_area_cleanup` at a concrete successful execution. -/
theorem work_area_cleanup_witness :
    (execute_python_code "print(1)" [] none (some "chat1")
        (mkOracle (fun _ => .ok) (.completed okProcess) false none)).2.cleanup_attempts = 1 ∧
    ((mkOracle (fun _ => .ok) (.completed okProcess) false none).rmtree_ok = true →
      (execute_python_code "print(1)" [] none (some "chat1")
        (mkOracle (fun _ => .ok) (.completed okProcess) false none)).2.work_area_absent = true) := by
  exact work_area_cleanup "print(1)" [] none (some "chat1")
    (mkOracle (fun _ => .ok) (.completed okProcess) false none) (by rfl)

/-- Over any run of the wrapper, the number of successful `savefig` writes is
0 while `_plot_saved` is unset and 1 once it is set. -/
theorem save_and_show_writes_aux (oks : List Bool) (s : ShowState)
    (h : s.writes = if s.plot_saved = true then 1 else 0) :
    (oks.foldl (fun s ok => save_and_show ok s) s).writes =
      if (oks.foldl (fun s ok => save_and_show ok s) s).plot_saved = true then 1 else 0 := by
  induction oks generalizing s with
  | nil => simpa using h
  | cons a as ih =>
    simp only [List.foldl_cons]
    apply ih
    rcases s with ⟨ps, w⟩
    cases ps <;> cases a <;> simp_all [save_and_show]

/-- **C7** (confirmed).  For every sequence of invocations of the overridden
display routine (with any per-call `savefig` outcomes), at most one artifact
file is ever written; and once the capture-once flag is set, every invocation
is a no-op. -/
theorem at_most_one_artifact :
    (∀ oks : List Bool, (run_shows oks).writes ≤ 1) ∧
    (∀ (ok : Bool) (s : ShowState), s.plot_saved = true → save_and_show ok s = s) := by
  constructor
  · intro oks
    have h := save_and_show_writes_aux oks { plot_saved := false, writes := 0 } (by simp)
    unfold run_shows
    rw [h]
    split <;> omega
  · intro ok s hs
    unfold save_and_show
    simp [hs]

/-- Witness for `at_most_one_artifact`: three `show` calls still write at
most once, and a call after the flag is set is a no-op. -/
theorem at_most_one_artifact_witness :
    (run_shows [true, true, false]).writes ≤ 1 ∧
    save_and_show true { plot_saved := true, writes := 1 }
      = { plot_saved := true, writes := 1 } :=
  ⟨at_most_one_artifact.1 [true, true, false],
   at_most_one_artifact.2 true { plot_saved := true, writes := 1 } rfl⟩

/-- **C8** (confirmed).  When the artifact file exists but promotion fails,
the failure is caught: the warning is appended to the (child's) stderr, no
artifact reference is set, and `success` is still determined solely by the
exit status — in particular it stays true when the child exited zero. -/
theorem promotion_failure_nonfatal (code : String) (files : List InputFileSpec)
    (t : Option PyTimeout) (cid : String) (o : Oracle) (d : String)
    (p : CompletedProcess) (emsg : String)
    (hcid : cid ≠ "") (htmp : o.temp_dir = .ok d) (hrun : o.run = .completed p)
    (hplot : o.plot_exists = true) (hpro : o.promote_error = some emsg) :
    (execute_python_code code files t (some cid) o).1
      = .ok { stdout := p.stdout,
              stderr := p.stderr ++ "\n[Error processing generated plot: " ++ emsg ++ "]",
              error := if p.returncode = 0 then none
                       else some (nonzero_error p.returncode p.stderr),
              success := decide (p.returncode = 0),
              plot_url := none } := by
  obtain ⟨td, fe, run, pe, pr, uu, rk, se⟩ := o
  simp only at htmp hrun hplot hpro
  subst htmp; subst hrun; subst hplot; subst hpro
  have hc : (some cid).getD "" ≠ "" := by simpa using hcid
  simp only [execute_python_code, if_neg hc]
  unfold promote_plot classify_exit
  by_cases hrc : p.returncode = 0 <;> simp [hrc]

/-- Witness for `promotion_failure_nonfatal`: a zero-exit run whose plot
cannot be moved still reports `success = true`, with the warning in stderr. -/
theorem promotion_failure_nonfatal_witness :
    (execute_python_code "plt.show()" [] none (some "chat1")
        (mkOracle (fun _ => .ok) (.completed okProcess) true (some "Permission denied"))).1
      = .ok { stdout := okProcess.stdout,
              stderr := okProcess.stderr
                ++ "\n[Error processing generated plot: " ++ "Permission denied" ++ "]",
              error := if okProcess.returncode = 0 then none
                       else some (nonzero_error okProcess.returncode okProcess.stderr),
              success := decide (okProcess.returncode = 0),
              plot_url := none } := by
  exact promotion_failure_nonfatal "plt.show()" [] none "chat1"
    (mkOracle (fun _ => .ok) (.completed okProcess) true (some "Permission denied"))
    "/tmp/tmpw4" okProcess "Permission denied" (by decide) rfl rfl rfl rfl

/-- The staging loop yields one outcome per input file. -/
theorem stage_files_from_length (d : String) (fetch : Nat → FetchOutcome) :
    ∀ (files : List InputFileSpec) (j : Nat),
      (stage_files_from d fetch files j).length = files.length := by
  intro files
  induction files with
  | nil => intro j; rfl
  | cons f rest ih => intro j; simp [stage_files_from, ih]

/-- The `i`-th staging outcome depends only on the `i`-th file and its own
fetch outcome. -/
theorem stage_files_from_getElem (d : String) (fetch : Nat → FetchOutcome) :
    ∀ (files : List InputFileSpec) (j i : Nat) (f : InputFileSpec),
      files[i]? = some f →
      (stage_files_from d fetch files j)[i]? = some (stage_one d f (fetch (j + i))) := by
  intro files
  induction files with
  | nil => intro j i f h; simp at h
  | cons g rest ih =>
    intro j i f h
    cases i with
    | zero =>
      simp only [List.getElem?_cons_zero, Option.some.injEq] at h
      subst h
      simp [stage_files_from]
    | succ n =>
      simp only [List.getElem?_cons_succ] at h
      have harith : j + (n + 1) = (j + 1) + n := by omega
      rw [harith]
      simpa [stage_files_from] using ih (j + 1) n f h

/-- **C9** (confirmed).  Staging processes every file, in input order; the
outcome of each file depends only on that file and its own fetch result, so
a transport/non-2xx failure records a warning for that file only and staging
continues; for any file the check admits, a request failure yields exactly
the bracketed warning; and with any fetch outcomes whatsoever, an execution
whose child completes still returns a result — a bad input never aborts. -/
theorem staging_tolerates_bad_inputs (d : String) (files : List InputFileSpec)
    (fet : Nat → FetchOutcome) :
    (stage_files d files fet).length = files.length ∧
    (∀ i f, files[i]? = some f →
      (stage_files d files fet)[i]? = some (stage_one d f (fet i))) ∧
    (∀ f msg, containment_admits d f.filename = true →
      stage_one d f (.requestError msg)
        = (.fetchFailed, "\n[Error fetching input file '" ++ f.filename ++ "': " ++ msg ++ "]")) ∧
    (∀ (code : String) (t : Option PyTimeout) (cid : String) (o : Oracle)
        (p : CompletedProcess),
      cid ≠ "" → o.temp_dir = .ok d → o.run = .completed p → o.fetch = fet →
      ∃ r, (execute_python_code code files t (some cid) o).1 = .ok r) := by
  refine ⟨stage_files_from_length d fet files 0, ?_, ?_, ?_⟩
  · intro i f h
    simpa using stage_files_from_getElem d fet files 0 i f h
  · intro f msg hadm
    simp [stage_one, hadm]
  · intro code t cid o p hcid htmp hrun hfe
    obtain ⟨td, fe, run, pe, pr, uu, rk, se⟩ := o
    simp only at htmp hrun
    subst htmp; subst hrun
    have hc : (some cid).getD "" ≠ "" := by simpa using hcid
    simp only [execute_python_code, if_neg hc]
    exact ⟨_, rfl⟩

/-- Witness for `staging_tolerates_bad_inputs` with one unreachable input. -/
theorem staging_tolerates_bad_inputs_witness :
    (stage_files "/tmp/tmpw4" [{ filename := "data.csv", url := "/u" }]
        (fun _ => .requestError "refused")).length = 1 ∧
    (stage_files "/tmp/tmpw4" [{ filename := "data.csv", url := "/u" }]
        (fun _ => .requestError "refused"))[0]?
      = some (stage_one "/tmp/tmpw4" { filename := "data.csv", url := "/u" }
          (.requestError "refused")) ∧
    stage_one "/tmp/tmpw4" { filename := "data.csv", url := "/u" } (.requestError "refused")
      = (.fetchFailed, "\n[Error fetching input file '" ++ "data.csv" ++ "': " ++ "refused" ++ "]") ∧
    ∃ r, (execute_python_code "print(1)" [{ filename := "data.csv", url := "/u" }] none
        (some "chat1")
        (mkOracle (fun _ => .requestError "refused") (.completed okProcess) false none)).1
      = .ok r := by
  obtain ⟨h1, h2, h3, h4⟩ := staging_tolerates_bad_inputs "/tmp/tmpw4"
    [{ filename := "data.csv", url := "/u" }] (fun _ => .requestError "refused")
  exact ⟨h1, h2 0 { filename := "data.csv", url := "/u" } rfl,
         h3 { filename := "data.csv", url := "/u" } "refused" (by decide),
         h4 "print(1)" none "chat1"
           (mkOracle (fun _ => .requestError "refused") (.completed okProcess) false none)
           okProcess (by decide) rfl rfl rfl⟩

/-- **C10** (confirmed).  Artifact promotion is independent of the exit
status: a child that exits non-zero but leaves `plot.png` in the work area
still gets the artifact moved and referenced — the returned result carries
both `success = false` and a present `plot_url`. -/
theorem failed_run_still_returns_artifact (code : String) (files : List InputFileSpec)
    (t : Option PyTimeout) (cid : String) (o : Oracle) (d : String)
    (p : CompletedProcess)
    (hcid : cid ≠ "") (htmp : o.temp_dir = .ok d) (hrun : o.run = .completed p)
    (hrc : p.returncode ≠ 0) (hplot : o.plot_exists = true)
    (hpro : o.promote_error = none) :
    (execute_python_code code files t (some cid) o).1
      = .ok { stdout := p.stdout, stderr := p.stderr,
              error := some (nonzero_error p.returncode p.stderr),
              success := false,
              plot_url := some ("/api/uploads/" ++ cid ++ "/plot_" ++ o.plot_uuid ++ ".png") } := by
  obtain ⟨td, fe, run, pe, pr, uu, rk, se⟩ := o
  simp only at htmp hrun hplot hpro
  subst htmp; subst hrun; subst hplot; subst hpro
  have hc : (some cid).getD "" ≠ "" := by simpa using hcid
  simp only [execute_python_code, if_neg hc]
  unfold promote_plot classify_exit
  simp [hrc]

/-- Witness for `failed_run_still_returns_artifact`: a crashing run with a
saved plot returns `success = false` together with a plot URL. -/
theorem failed_run_still_returns_artifact_witness :
    (execute_python_code "plt.show(); raise Exception" [] none (some "chat1")
        (mkOracle (fun _ => .ok) (.completed failProcess) true none)).1
      = .ok { stdout := failProcess.stdout, stderr := failProcess.stderr,
              error := some (nonzero_error failProcess.returncode failProcess.stderr),
              success := false,
              plot_url := some ("/api/uploads/" ++ "chat1" ++ "/plot_"
                ++ (mkOracle (fun _ => .ok) (.completed failProcess) true none).plot_uuid
                ++ ".png") } := by
  exact failed_run_still_returns_artifact "plt.show(); raise Exception" [] none "chat1"
    (mkOracle (fun _ => .ok) (.completed failProcess) true none) "/tmp/tmpw4" failProcess
    (by decide) rfl rfl (by decide) rfl rfl

end CodeExecutor

